import Mathlib

/-!
Verification of the sqs_email_sender pipeline: a shallow embedding of the
message-processing code (pointer extraction, record fetch, conditional status
transitions, per-message processing, batch reconciliation and the poll loop)
together with proofs of the specified properties.

External collaborators (the SQS queue service, the DynamoDB record store and
serde_json) are modelled by executable Lean functions implementing their
documented contracts; injected backend failures are explicit parameters so
that the error paths of the embedded code are reachable.
-/

set_option maxRecDepth 4000

/-! ## JSON (model of serde_json for `EmailPointer` deserialization)

`EmailPointer::from_json` calls `serde_json::from_str`.  The model below is a
recursive-descent JSON parser (fuel-indexed to make totality evident) plus the
serde-derived deserializer for a struct with a single `String` field
`email_id`: the document must be a JSON object in which `email_id` occurs
exactly once with a string value; unknown fields are ignored. -/

inductive Json where
  | null : Json
  | bool (b : Bool) : Json
  | num (raw : String) : Json
  | str (s : String) : Json
  | arr (elems : List Json) : Json
  | obj (members : List (String × Json)) : Json

/-- Left brace character, written via its code point. -/
def lbrace : Char := Char.ofNat 123

/-- Right brace character, written via its code point. -/
def rbrace : Char := Char.ofNat 125

def jsonWs (c : Char) : Bool :=
  c = ' ' || c = '\t' || c = '\n' || c = '\r'

def skipWs : List Char → List Char
  | [] => []
  | c :: cs => if jsonWs c then skipWs cs else c :: cs

def hexVal (c : Char) : Option Nat :=
  if '0' ≤ c ∧ c ≤ '9' then some (c.toNat - '0'.toNat)
  else if 'a' ≤ c ∧ c ≤ 'f' then some (c.toNat - 'a'.toNat + 10)
  else if 'A' ≤ c ∧ c ≤ 'F' then some (c.toNat - 'A'.toNat + 10)
  else none

/-- Parse the body of a JSON string literal (the opening quote already
consumed), handling the standard escapes. -/
def parseStringBody : Nat → List Char → List Char → Option (String × List Char)
  | 0, _, _ => none
  | _ + 1, [], _ => none
  | fuel + 1, c :: cs, acc =>
    if c = '"' then some (String.mk acc.reverse, cs)
    else if c = '\\' then
      match cs with
      | [] => none
      | e :: cs2 =>
        if e = '"' then parseStringBody fuel cs2 ('"' :: acc)
        else if e = '\\' then parseStringBody fuel cs2 ('\\' :: acc)
        else if e = '/' then parseStringBody fuel cs2 ('/' :: acc)
        else if e = 'b' then parseStringBody fuel cs2 (Char.ofNat 8 :: acc)
        else if e = 'f' then parseStringBody fuel cs2 (Char.ofNat 12 :: acc)
        else if e = 'n' then parseStringBody fuel cs2 ('\n' :: acc)
        else if e = 'r' then parseStringBody fuel cs2 ('\r' :: acc)
        else if e = 't' then parseStringBody fuel cs2 ('\t' :: acc)
        else if e = 'u' then
          match cs2 with
          | h1 :: h2 :: h3 :: h4 :: cs3 =>
            match hexVal h1, hexVal h2, hexVal h3, hexVal h4 with
            | some a, some b, some c3, some d =>
              parseStringBody fuel cs3 (Char.ofNat (((a * 16 + b) * 16 + c3) * 16 + d) :: acc)
            | _, _, _, _ => none
          | _ => none
        else none
    else parseStringBody fuel cs (c :: acc)

def takeDigits : List Char → List Char × List Char
  | [] => ([], [])
  | c :: cs =>
    if c.isDigit then
      let p := takeDigits cs
      (c :: p.1, p.2)
    else ([], c :: cs)

/-- Parse a JSON numeric literal, keeping its raw text. -/
def parseNumber (cs : List Char) : Option (Json × List Char) :=
  let (neg, cs1) :=
    match cs with
    | '-' :: rest => (['-'], rest)
    | _ => (([] : List Char), cs)
  let (intPart, cs2) := takeDigits cs1
  if intPart.isEmpty then none
  else
    let (fracPart, cs3) :=
      match cs2 with
      | '.' :: rest =>
        let p := takeDigits rest
        if p.1.isEmpty then (none, cs2) else (some ('.' :: p.1), p.2)
      | _ => (none, cs2)
    match fracPart with
    | none =>
      match cs2 with
      | '.' :: _ => none
      | _ => expParse (neg ++ intPart) cs2
    | some fp => expParse (neg ++ intPart ++ fp) cs3
where
  expParse (txt : List Char) (cs : List Char) : Option (Json × List Char) :=
    match cs with
    | 'e' :: rest => expTail txt 'e' rest
    | 'E' :: rest => expTail txt 'E' rest
    | _ => some (Json.num (String.mk txt), cs)
  expTail (txt : List Char) (e : Char) (cs : List Char) : Option (Json × List Char) :=
    let (sign, cs1) :=
      match cs with
      | '+' :: rest => (['+'], rest)
      | '-' :: rest => (['-'], rest)
      | _ => (([] : List Char), cs)
    let (digits, cs2) := takeDigits cs1
    if digits.isEmpty then none
    else some (Json.num (String.mk (txt ++ e :: sign ++ digits)), cs2)

def dropLit : List Char → List Char → Option (List Char)
  | [], cs => some cs
  | _ :: _, [] => none
  | l :: ls, c :: cs => if l = c then dropLit ls cs else none

mutual

def parseValue : Nat → List Char → Option (Json × List Char)
  | 0, _ => none
  | fuel + 1, cs =>
    match skipWs cs with
    | [] => none
    | c :: rest =>
      if c = '"' then
        match parseStringBody (rest.length + 1) rest [] with
        | some (s, r) => some (Json.str s, r)
        | none => none
      else if c = lbrace then
        match skipWs rest with
        | c2 :: rest2 =>
          if c2 = rbrace then some (Json.obj [], rest2)
          else parseObjTail fuel (c2 :: rest2) []
        | [] => none
      else if c = '[' then
        match skipWs rest with
        | c2 :: rest2 =>
          if c2 = ']' then some (Json.arr [], rest2)
          else parseArrTail fuel (c2 :: rest2) []
        | [] => none
      else if c = 't' then
        match dropLit ['r', 'u', 'e'] rest with
        | some r => some (Json.bool true, r)
        | none => none
      else if c = 'f' then
        match dropLit ['a', 'l', 's', 'e'] rest with
        | some r => some (Json.bool false, r)
        | none => none
      else if c = 'n' then
        match dropLit ['u', 'l', 'l'] rest with
        | some r => some (Json.null, r)
        | none => none
      else if c = '-' ∨ c.isDigit then parseNumber (c :: rest)
      else none

def parseObjTail : Nat → List Char → List (String × Json) → Option (Json × List Char)
  | 0, _, _ => none
  | fuel + 1, cs, acc =>
    match skipWs cs with
    | c :: rest =>
      if c = '"' then
        match parseStringBody (rest.length + 1) rest [] with
        | some (key, cs2) =>
          match skipWs cs2 with
          | ':' :: cs3 =>
            match parseValue fuel cs3 with
            | some (v, cs4) =>
              match skipWs cs4 with
              | c5 :: cs5 =>
                if c5 = ',' then parseObjTail fuel cs5 ((key, v) :: acc)
                else if c5 = rbrace then some (Json.obj (((key, v) :: acc).reverse), cs5)
                else none
              | [] => none
            | none => none
          | _ => none
        | none => none
      else none
    | [] => none

def parseArrTail : Nat → List Char → List Json → Option (Json × List Char)
  | 0, _, _ => none
  | fuel + 1, cs, acc =>
    match parseValue fuel cs with
    | some (v, cs2) =>
      match skipWs cs2 with
      | c3 :: cs3 =>
        if c3 = ',' then parseArrTail fuel cs3 (v :: acc)
        else if c3 = ']' then some (Json.arr ((v :: acc).reverse), cs3)
        else none
      | [] => none
    | none => none

end

/-- Parse a complete JSON document: one value followed only by whitespace. -/
def Json.parse (s : String) : Option Json :=
  match parseValue (s.length + 1) s.data with
  | some (v, rest) => if (skipWs rest).isEmpty then some v else none
  | none => none

/-! ## Queue model (src/email_shared/src/queue.rs)

`Message` mirrors `rusoto_sqs::Message` (field list as in
src/email_lambda/src/de.rs, which copies it): every field is optional.
Attribute maps are modelled as association lists of strings. -/

structure Message where
  attributes : Option (List (String × String))
  body : Option String
  md5_of_body : Option String
  md5_of_message_attributes : Option String
  message_attributes : Option (List (String × String))
  message_id : Option String
  receipt_handle : Option String
deriving Repr, DecidableEq

/-- A `Message` with only `message_id`, `receipt_handle` and `body` set (the
fields pointer extraction inspects); the remaining fields are `none`. -/
def Message.mk3 (id handle body : Option String) : Message :=
  ⟨none, body, none, none, none, id, handle⟩

structure EmailPointer where
  email_id : String
deriving Repr, DecidableEq

/-- serde-derived deserialization of `EmailPointer` from a JSON value: the
value must be an object whose `email_id` member occurs exactly once and is a
string; other members are ignored (serde default). -/
def EmailPointer.ofJson : Json → Option EmailPointer
  | Json.obj members =>
    match members.filter (fun kv => kv.1 = "email_id") with
    | [(_, Json.str v)] => some ⟨v⟩
    | _ => none
  | _ => none

/-- Embeds `EmailPointer::from_json`: `serde_json::from_str(&json).ok()`. -/
def EmailPointer.from_json (json : String) : Option EmailPointer :=
  (Json.parse json).bind EmailPointer.ofJson

structure EmailPointerMessage where
  message_id : String
  handle : String
  email_id : String
deriving Repr, DecidableEq

/-- Embeds `TryFrom<Message> for EmailPointerMessage` (src/email_shared/src/queue.rs). -/
def EmailPointerMessage.try_from (message : Message) : Except String EmailPointerMessage :=
  let id := message.message_id
  let handle := message.receipt_handle
  let body := (message.body.map EmailPointer.from_json).join
  match id, handle, body with
  | some i, some h, some pointer => Except.ok ⟨i, h, pointer.email_id⟩
  | none, _, _ => Except.error "No message id was found"
  | some _, none, _ => Except.error "No receipt handle for message"
  | some _, some _, none => Except.error "Unable to parse EmailPointer."

structure DeleteMessageBatchRequestEntry where
  id : String
  receipt_handle : String
deriving Repr, DecidableEq

/-- Embeds `From<&EmailPointerMessage> for DeleteMessageBatchRequestEntry`. -/
def DeleteMessageBatchRequestEntry.ofPointer
    (message : EmailPointerMessage) : DeleteMessageBatchRequestEntry :=
  ⟨message.message_id, message.handle⟩

/-! ## Delivery status and email record (src/email_shared/src/email_message.rs) -/

inductive EmailStatus where
  | Pending : EmailStatus
  | Sending : EmailStatus
  | Sent : EmailStatus
  | Unknown : EmailStatus
deriving Repr, DecidableEq

/-- Embeds `From<&str> for EmailStatus` (src/email_shared/src/email_message.rs):
the three known stored values map to their variants, anything else to
`Unknown`. -/
def EmailStatus.fromStr (status : String) : EmailStatus :=
  if status = "Pending" then EmailStatus.Pending
  else if status = "Sending" then EmailStatus.Sending
  else if status = "Sent" then EmailStatus.Sent
  else EmailStatus.Unknown

/-- Modelled from the spec: the `Display` implementation for `EmailStatus`
(used by `set_email_status` via `to_string`) is not under `src/` — only its
callers are.  Per the spec the store holds the literal status strings
"Pending", "Sending", "Sent" (data model and record-store contract sections),
with the fallback variant rendered by its name. -/
def EmailStatus.toStr : EmailStatus → String
  | EmailStatus.Pending => "Pending"
  | EmailStatus.Sending => "Sending"
  | EmailStatus.Sent => "Sent"
  | EmailStatus.Unknown => "Unknown"

structure EmailMessageAttachment where
  body : String
  name : String
  content_type : String
  size : Int
  e_tag : String
  last_modified : String
deriving Repr, DecidableEq

structure EmailMessage where
  attachments : List EmailMessageAttachment
  body_html : String
  body_text : String
  email_id : String
  failed_count : Int
  provider : String
  provider_response : Option String
  recipients_bcc : List String
  recipients_cc : List String
  recipients_to : List String
  sender : String
  sent_count : Int
  sent_at : Option String
  status : EmailStatus
  subject : String
  updated_at : String
deriving Repr, DecidableEq

/-- Embeds `EmailMessage::default()`: empty/zero fields, status `Pending` (the
`Default` impl for `EmailStatus`). -/
def EmailMessage.default : EmailMessage :=
  ⟨[], "", "", "", 0, "", none, [], [], [], "", 0, none, EmailStatus.Pending, "", ""⟩

/-- Embeds `EmailMessage { email_id, subject, status, ..EmailMessage::default() }`. -/
def EmailMessage.withFields (email_id subject : String) (status : EmailStatus) : EmailMessage :=
  ⟨[], "", "", email_id, 0, "", none, [], [], [], "", 0, none, status, subject, ""⟩

/-! ## DynamoDB model

`AttributeValue`, items and inputs mirror the `rusoto_dynamodb` types as the
repository uses them (string and number variants only); the store itself and
its get/conditional-update semantics are modelled from the spec's external
record-store contract. -/

structure AttributeValue where
  s : Option String
  n : Option String
deriving Repr, DecidableEq

abbrev Item := List (String × AttributeValue)

def Item.get (item : Item) (key : String) : Option AttributeValue :=
  (item.find? (fun kv => kv.1 = key)).map (fun kv => kv.2)

/-- The string attribute stored under `key`, when present. -/
def Item.strAttr (item : Item) (key : String) : Option String :=
  (Item.get item key).bind (fun av => av.s)

/-- Embeds `DynamoItemWrapper::s` (src/email_shared/src/attribute_value_wrapper.rs):
`self.item.get(key).and_then(|av| av.s.clone()).ok_or(error)`. -/
def DynamoItemWrapper.s {E : Type} (item : Item) (key : String) (error : E) :
    Except E String :=
  match Item.strAttr item key with
  | some v => Except.ok v
  | none => Except.error error

/-- Embeds `AttributeValueMap::with_entry`. -/
def AttributeValueMap.with_entry (key : String) (value : String) : Item :=
  [(key, ⟨some value, none⟩)]

/-- Embeds `AttributeValueMap::with_entries`. -/
def AttributeValueMap.with_entries (entries : List (String × String)) : Item :=
  entries.map (fun kv => (kv.1, (⟨some kv.2, none⟩ : AttributeValue)))

structure GetItemOutput where
  item : Option Item
deriving Repr, DecidableEq

structure GetItemInput where
  key : Item
  table_name : String
deriving Repr, DecidableEq

structure UpdateItemInput where
  condition_expression : Option String
  expression_attribute_values : Option Item
  key : Item
  table_name : String
  update_expression : Option String
deriving Repr, DecidableEq

/-- Embeds `UpdateError` (src/email_shared/src/error.rs). -/
inductive UpdateError where
  | ConditionalCheckFailed (msg : String) : UpdateError
  | InternalServerError (msg : String) : UpdateError
  | ItemCollectionSizeLimitExceeded (msg : String) : UpdateError
  | ProvisionedThroughputExceeded (msg : String) : UpdateError
  | RequestLimitExceeded (msg : String) : UpdateError
  | ResourceNotFound (msg : String) : UpdateError
  | ServiceError (msg : String) : UpdateError
  | TransactionConflict (msg : String) : UpdateError
deriving Repr, DecidableEq

/-- Embeds `GetError` (src/email_shared/src/error.rs). -/
inductive GetError where
  | InternalServerError (msg : String) : GetError
  | ParseError (msg : String) : GetError
  | PropertyMissing (msg : String) : GetError
  | ProvisionedThroughputExceeded (msg : String) : GetError
  | RecordNotFound : GetError
  | RequestLimitExceeded (msg : String) : GetError
  | ResourceNotFound (msg : String) : GetError
  | ServiceError (msg : String) : GetError
deriving Repr, DecidableEq

/-- The record store: items keyed by their `EmailId` partition-key value. -/
abbrev Table := List (String × Item)

def Table.lookup (t : Table) (key : String) : Option Item :=
  (t.find? (fun kv => kv.1 = key)).map (fun kv => kv.2)

def Table.setItem : Table → String → Item → Table
  | [], key, item => [(key, item)]
  | (k, it) :: rest, key, item =>
    if k = key then (key, item) :: rest else (k, it) :: Table.setItem rest key item

def Item.setAttr : Item → String → AttributeValue → Item
  | [], key, v => [(key, v)]
  | (k, v0) :: rest, key, v =>
    if k = key then (key, v) :: rest else (k, v0) :: Item.setAttr rest key v

/-- The stored status string of the record keyed by `key`. -/
def Table.statusOf (t : Table) (key : String) : Option String :=
  (Table.lookup t key).bind (fun item => Item.strAttr item "EmailStatus")

/-- Modelled from the spec: the external record store's conditional-update
contract ("condition = stored status equals `from`; effect = set status to
`to`; must be atomic", external-interfaces section), interpreted for the one
input shape the repository builds: condition `EmailStatus = :expected`,
update `SET EmailStatus = :next`, key attribute `EmailId`.  `fault` injects a
backend-level failure (unreachable/throttled); with no fault the update
succeeds exactly when the stored `EmailStatus` equals `:expected`, failing
with `ConditionalCheckFailed` otherwise (also when the item is absent), and
on success rewrites only the `EmailStatus` attribute of that item. -/
def dynamoUpdateItem (table : Table) (fault : Option UpdateError)
    (input : UpdateItemInput) : Except UpdateError Table :=
  match fault with
  | some e => Except.error e
  | none =>
    if input.condition_expression = some "EmailStatus = :expected" ∧
        input.update_expression = some "SET EmailStatus = :next" then
      match Item.strAttr input.key "EmailId", input.expression_attribute_values with
      | some keyVal, some vals =>
        match Item.strAttr vals ":expected", Item.strAttr vals ":next" with
        | some expected, some next =>
          match Table.lookup table keyVal with
          | some item =>
            if Item.strAttr item "EmailStatus" = some expected then
              Except.ok (Table.setItem table keyVal
                (Item.setAttr item "EmailStatus" ⟨some next, none⟩))
            else Except.error (UpdateError.ConditionalCheckFailed "The conditional request failed")
          | none => Except.error (UpdateError.ConditionalCheckFailed "The conditional request failed")
        | _, _ => Except.error (UpdateError.ServiceError "ValidationException")
      | _, _ => Except.error (UpdateError.ServiceError "ValidationException")
    else Except.error (UpdateError.ServiceError "ValidationException")

/-- Modelled from the spec: the external record store's get contract — look
the item up by its `EmailId` key; `fault` injects a backend failure. -/
def dynamoGetItem (table : Table) (fault : Option GetError)
    (input : GetItemInput) : Except GetError GetItemOutput :=
  match fault with
  | some e => Except.error e
  | none =>
    match Item.strAttr input.key "EmailId" with
    | some keyVal => Except.ok ⟨Table.lookup table keyVal⟩
    | none => Except.error (GetError.ServiceError "ValidationException")

/-- Embeds `set_email_status` (src/email_shared/src/dynamo.rs): build the
conditional `UpdateItemInput` and run it against the store. -/
def set_email_status (table : Table) (fault : Option UpdateError)
    (table_name : String) (message : EmailPointerMessage)
    (current_status next_status : EmailStatus) : Except UpdateError Table :=
  let input : UpdateItemInput :=
    ⟨some "EmailStatus = :expected",
      some (AttributeValueMap.with_entries
        [(":expected", current_status.toStr), (":next", next_status.toStr)]),
      AttributeValueMap.with_entry "EmailId" message.email_id,
      table_name,
      some "SET EmailStatus = :next"⟩
  dynamoUpdateItem table fault input

deriving instance DecidableEq for Except

/-- Embeds `extract_email_field` (src/email_shared/src/dynamo.rs). -/
def extract_email_field (item : Item) (field : String) : Except GetError String :=
  DynamoItemWrapper.s item field (GetError.PropertyMissing field)

/-- Embeds `TryFrom<GetItemOutput> for EmailMessage` (src/email_shared/src/dynamo.rs):
requires the `EmailId`, `Subject` and `EmailStatus` string attributes, in that
order, parsing the status with `EmailStatus::from`. -/
def EmailMessage.try_from (data : GetItemOutput) : Except GetError EmailMessage :=
  match data.item with
  | none => Except.error GetError.RecordNotFound
  | some item =>
    match extract_email_field item "EmailId" with
    | Except.error e => Except.error e
    | Except.ok email_id =>
      match extract_email_field item "Subject" with
      | Except.error e => Except.error e
      | Except.ok subject =>
        match extract_email_field item "EmailStatus" with
        | Except.error e => Except.error e
        | Except.ok statusStr =>
          Except.ok (EmailMessage.withFields email_id subject (EmailStatus.fromStr statusStr))

/-- Embeds `get_email_message` (src/email_shared/src/dynamo.rs): get the item keyed
by the pointer's `email_id` and parse it into an `EmailMessage`. -/
def get_email_message (table : Table) (fault : Option GetError)
    (table_name : String) (message : EmailPointerMessage) : Except GetError EmailMessage :=
  let input : GetItemInput := ⟨AttributeValueMap.with_entry "EmailId" message.email_id, table_name⟩
  match dynamoGetItem table fault input with
  | Except.error e => Except.error e
  | Except.ok output => EmailMessage.try_from output

/-- Embeds `upate_to_sending` (src/email_lambda/src/main.rs): conditional
`Pending → Sending` transition through `set_email_status`. -/
def upate_to_sending (table : Table) (fault : Option UpdateError)
    (table_name : String) (pointer : EmailPointerMessage) : Except UpdateError Table :=
  set_email_status table fault table_name pointer EmailStatus.Pending EmailStatus.Sending

/-- Embeds `upate_to_sent` (src/email_lambda/src/main.rs): conditional
`Sending → Sent` transition through `set_email_status`. -/
def upate_to_sent (table : Table) (fault : Option UpdateError)
    (table_name : String) (pointer : EmailPointerMessage) : Except UpdateError Table :=
  set_email_status table fault table_name pointer EmailStatus.Sending EmailStatus.Sent

/-- Modelled from the spec: `set_email_to_sending`, imported by
src/email_shared/src/client.rs from `crate::dynamo`, is not itself under
`src/`.  Per the spec's state machine (step 2: attempt
`transition(Pending → Sending)`) — and identically to the lambda's
`upate_to_sending` — it performs the conditional `Pending → Sending` update. -/
def set_email_to_sending (table : Table) (fault : Option UpdateError)
    (table_name : String) (pointer : EmailPointerMessage) : Except UpdateError Table :=
  set_email_status table fault table_name pointer EmailStatus.Pending EmailStatus.Sending

/-- Modelled from the spec: `set_email_to_sent`, imported by
src/email_shared/src/client.rs from `crate::dynamo`, is not itself under
`src/`.  Per the spec's state machine (step 4: attempt
`transition(Sending → Sent)`) — and identically to the lambda's
`upate_to_sent` — it performs the conditional `Sending → Sent` update. -/
def set_email_to_sent (table : Table) (fault : Option UpdateError)
    (table_name : String) (pointer : EmailPointerMessage) : Except UpdateError Table :=
  set_email_status table fault table_name pointer EmailStatus.Sending EmailStatus.Sent

/-! ## The shared client (src/email_shared/src/client.rs)

`process_message` is sequential stateful code; the embedding threads the
store state explicitly and additionally records the trace of collaborator
calls attempted (fetch, conditional transition, delivery), so that
"never attempted" properties are expressible.  `CallFaults` carries the
injected backend failure, if any, for each of the three fallible backend
calls a single message can make. -/

/-- Embeds `ProcessError` (src/email_shared/src/error.rs). -/
inductive ProcessError where
  | Retry : ProcessError
  | Skip (pointer : EmailPointerMessage) : ProcessError
  | SkipMessage (message : Message) : ProcessError
deriving Repr, DecidableEq

/-- One collaborator call attempted while processing a message. -/
inductive Call where
  | getEmail (email_id : String) : Call
  | setStatus (email_id : String) (current next : EmailStatus) : Call
  | send (email : EmailMessage) : Call
deriving Repr, DecidableEq

/-- Injected backend failures for the (at most) three backend calls one
message makes: the fetch, the `Pending → Sending` update and the
`Sending → Sent` update. -/
structure CallFaults where
  getFault : Option GetError
  sendingFault : Option UpdateError
  sentFault : Option UpdateError
deriving Repr, DecidableEq

def CallFaults.none3 : CallFaults := ⟨none, none, none⟩

/-- Embeds `Client::send_email` (src/email_shared/src/client.rs): the delivery stub,
which always fails. -/
def Client.send_email (_email : EmailMessage) : Except String Unit :=
  Except.error "Unimplemented"

/-- Embeds `Client::process_message` (src/email_shared/src/client.rs): parse the
pointer, fetch the record, skip when not `Pending`, transition to `Sending`,
deliver, transition to `Sent`.  Returns the outcome, the store state after
the call and the trace of collaborator calls attempted. -/
def Client.process_message (table : Table) (table_name : String)
    (faults : CallFaults) (message : Message) :
    Except ProcessError EmailPointerMessage × Table × List Call :=
  match EmailPointerMessage.try_from message with
  | Except.error _ => (Except.error (ProcessError.SkipMessage message), table, [])
  | Except.ok pointer =>
    match get_email_message table faults.getFault table_name pointer with
    | Except.error _ => (Except.error ProcessError.Retry, table, [Call.getEmail pointer.email_id])
    | Except.ok mail =>
      if mail.status ≠ EmailStatus.Pending then
        (Except.error (ProcessError.Skip pointer), table, [Call.getEmail pointer.email_id])
      else
        match set_email_to_sending table faults.sendingFault table_name pointer with
        | Except.error _ =>
          (Except.error ProcessError.Retry, table,
            [Call.getEmail pointer.email_id,
              Call.setStatus pointer.email_id EmailStatus.Pending EmailStatus.Sending])
        | Except.ok table1 =>
          match Client.send_email mail with
          | Except.error _ =>
            (Except.error ProcessError.Retry, table1,
              [Call.getEmail pointer.email_id,
                Call.setStatus pointer.email_id EmailStatus.Pending EmailStatus.Sending,
                Call.send mail])
          | Except.ok _ =>
            match set_email_to_sent table1 faults.sentFault table_name pointer with
            | Except.error _ =>
              (Except.error ProcessError.Retry, table1,
                [Call.getEmail pointer.email_id,
                  Call.setStatus pointer.email_id EmailStatus.Pending EmailStatus.Sending,
                  Call.send mail,
                  Call.setStatus pointer.email_id EmailStatus.Sending EmailStatus.Sent])
            | Except.ok table2 =>
              (Except.ok pointer, table2,
                [Call.getEmail pointer.email_id,
                  Call.setStatus pointer.email_id EmailStatus.Pending EmailStatus.Sending,
                  Call.send mail,
                  Call.setStatus pointer.email_id EmailStatus.Sending EmailStatus.Sent])

/-- Embeds `Client::process_messages` (src/email_shared/src/client.rs): process each
message in order, collecting a deletion entry from the pointer for `Ok` and
`Skip` outcomes and from the raw message's own `message_id.unwrap()` /
`receipt_handle.unwrap()` for `SkipMessage` outcomes, and none for `Retry`.
The `unwrap` panic on a missing field is modelled as `none`: the run aborts
and no entry list is produced. -/
def Client.process_messages : Table → String → List CallFaults → List Message →
    Option (List DeleteMessageBatchRequestEntry) × Table
  | table, _, _, [] => (some [], table)
  | table, table_name, faults, message :: rest =>
    let step := Client.process_message table table_name (faults.headD CallFaults.none3) message
    match step.1 with
    | Except.ok pointer =>
      let next := Client.process_messages step.2.1 table_name faults.tail rest
      (next.1.map (fun es => DeleteMessageBatchRequestEntry.ofPointer pointer :: es), next.2)
    | Except.error (ProcessError.Skip pointer) =>
      let next := Client.process_messages step.2.1 table_name faults.tail rest
      (next.1.map (fun es => DeleteMessageBatchRequestEntry.ofPointer pointer :: es), next.2)
    | Except.error (ProcessError.SkipMessage m) =>
      match m.message_id, m.receipt_handle with
      | some i, some h =>
        let next := Client.process_messages step.2.1 table_name faults.tail rest
        (next.1.map (fun es => (⟨i, h⟩ : DeleteMessageBatchRequestEntry) :: es), next.2)
      | _, _ => (none, step.2.1)
    | Except.error ProcessError.Retry =>
      Client.process_messages step.2.1 table_name faults.tail rest

/-- The sequence of per-message outcomes produced while the batch runs. -/
def Client.process_outcomes : Table → String → List CallFaults → List Message →
    List (Except ProcessError EmailPointerMessage)
  | _, _, _, [] => []
  | table, table_name, faults, message :: rest =>
    let step := Client.process_message table table_name (faults.headD CallFaults.none3) message
    step.1 :: Client.process_outcomes step.2.1 table_name faults.tail rest

/-- The deletion entry an outcome contributes: `Ok`/`Skip` contribute the
entry built from the pointer, `SkipMessage` the entry keyed by the raw
message's own identifiers (when they exist), `Retry` none. -/
def entryOfOutcome : Except ProcessError EmailPointerMessage →
    Option DeleteMessageBatchRequestEntry
  | Except.ok pointer => some (DeleteMessageBatchRequestEntry.ofPointer pointer)
  | Except.error (ProcessError.Skip pointer) => some (DeleteMessageBatchRequestEntry.ofPointer pointer)
  | Except.error (ProcessError.SkipMessage m) =>
    match m.message_id, m.receipt_handle with
    | some i, some h => some ⟨i, h⟩
    | _, _ => none
  | Except.error ProcessError.Retry => none

/-! ## The lambda handler (src/email_lambda/src/main.rs) -/

/-- Embeds `EmailHandlerError` (src/email_lambda/src/error.rs). -/
inductive EmailHandlerError where
  | BatchFailure : EmailHandlerError
  | PartialBatchFailure : EmailHandlerError
  | SqsDeleteFailed : EmailHandlerError
deriving Repr, DecidableEq

/-- One iteration of the lambda handler's record loop: the entry pushed onto
`entries_to_delete` for this record (if any) and the store state afterwards.
Parse failures, fetch failures and failed conditional updates `continue`
without an entry; a non-`Pending` status or a completed
`Pending → Sending → Sent` run pushes the pointer's entry.  (The send step is
a `TODO` in the source: the handler goes straight from the `Sending` update
to the `Sent` update.) -/
def lambda_process_record (table : Table) (table_name : String)
    (faults : CallFaults) (record : Message) :
    Option DeleteMessageBatchRequestEntry × Table :=
  match EmailPointerMessage.try_from record with
  | Except.error _ => (none, table)
  | Except.ok pointer =>
    match get_email_message table faults.getFault table_name pointer with
    | Except.error _ => (none, table)
    | Except.ok mail =>
      if mail.status ≠ EmailStatus.Pending then
        (some (DeleteMessageBatchRequestEntry.ofPointer pointer), table)
      else
        match upate_to_sending table faults.sendingFault table_name pointer with
        | Except.error _ => (none, table)
        | Except.ok table1 =>
          match upate_to_sent table1 faults.sentFault table_name pointer with
          | Except.error _ => (none, table1)
          | Except.ok table2 => (some (DeleteMessageBatchRequestEntry.ofPointer pointer), table2)

/-- The lambda handler's record loop: `entries_to_delete` collected over the
batch, with the store state threaded through. -/
def lambda_entries : Table → String → List CallFaults → List Message →
    List DeleteMessageBatchRequestEntry × Table
  | table, _, _, [] => ([], table)
  | table, table_name, faults, record :: rest =>
    let step := lambda_process_record table table_name (faults.headD CallFaults.none3) record
    let next := lambda_entries step.2 table_name faults.tail rest
    (match step.1 with
      | some e => e :: next.1
      | none => next.1,
      next.2)

/-- Embeds `handler` (src/email_lambda/src/main.rs), classification included: if
every received record produced a deletion entry the batch is a success;
otherwise the collected entries are deleted (`delete_response` is the
external queue service's answer to that call) and the failure is classified:
`Ok` response with a positive entry count ⇒ `PartialBatchFailure`, `Ok`
response with zero entries ⇒ `BatchFailure`, `Err` response ⇒
`SqsDeleteFailed`. -/
def handler (table : Table) (table_name : String) (faults : List CallFaults)
    (records : List Message) (delete_response : Except String Unit) :
    Except EmailHandlerError String :=
  let record_count := records.length
  let entries_to_delete := (lambda_entries table table_name faults records).1
  let entries_to_delete_count := entries_to_delete.length
  if record_count = entries_to_delete_count then
    Except.ok "Goodbye"
  else
    match delete_response with
    | Except.ok _ =>
      if entries_to_delete_count > 0 then Except.error EmailHandlerError.PartialBatchFailure
      else Except.error EmailHandlerError.BatchFailure
    | Except.error _ => Except.error EmailHandlerError.SqsDeleteFailed

/-! ## The broker (src/email_broker/src/main.rs)

The broker has its own (older) record accessor returning
`ParseEmailMessageCode` (src/email_shared/src/email_message.rs) and its own
processing loop; its `main` loops forever unless `--dry-run` breaks after the
first poll-process-reconcile cycle.  The loop body builds and logs the
`DeleteMessageBatchRequest` but never issues it. -/

/-- Embeds `ParseEmailMessageCode` (src/email_shared/src/email_message.rs). -/
inductive ParseEmailMessageCode where
  | RecordNotFound : ParseEmailMessageCode
  | RecordMissingId : ParseEmailMessageCode
  | RecordMissingSubject : ParseEmailMessageCode
  | RecordUnreachable : ParseEmailMessageCode
deriving Repr, DecidableEq

/-- Embeds `TryFrom<GetItemOutput> for EmailMessage` with `ParseEmailMessageCode`
errors (src/email_shared/src/email_message.rs): only `EmailId` and `Subject`
are extracted; the rest is defaulted. -/
def EmailMessage.try_from_pemc (data : GetItemOutput) :
    Except ParseEmailMessageCode EmailMessage :=
  match data.item with
  | none => Except.error ParseEmailMessageCode.RecordNotFound
  | some item =>
    match DynamoItemWrapper.s item "EmailId" ParseEmailMessageCode.RecordMissingId with
    | Except.error e => Except.error e
    | Except.ok email_id =>
      match DynamoItemWrapper.s item "Subject" ParseEmailMessageCode.RecordMissingSubject with
      | Except.error e => Except.error e
      | Except.ok subject =>
        Except.ok (EmailMessage.withFields email_id subject EmailStatus.Pending)

/-- Embeds `Client::get_email_message` (src/email_broker/src/main.rs): get item by
the pointer's key (`GetItemInput::from(&pointer)` sets the `EmailId` key);
transport-level failures (`fault = true`) become `RecordUnreachable`. -/
def Broker.get_email_message (table : Table) (fault : Bool)
    (table_name : String) (message : EmailPointerMessage) :
    Except ParseEmailMessageCode EmailMessage :=
  let input : GetItemInput := ⟨AttributeValueMap.with_entry "EmailId" message.email_id, table_name⟩
  if fault then Except.error ParseEmailMessageCode.RecordUnreachable
  else
    match dynamoGetItem table none input with
    | Except.error _ => Except.error ParseEmailMessageCode.RecordUnreachable
    | Except.ok output => EmailMessage.try_from_pemc output

/-- Embeds `send_email` (src/email_broker/src/main.rs): the delivery stub, which
always fails. -/
def Broker.send_email (_email : EmailMessage) : Except String Unit :=
  Except.error "Unimplemented"

/-- Embeds `Client::process_message` (src/email_broker/src/main.rs). -/
def Broker.process_message (table : Table) (fault : Bool) (table_name : String)
    (message : Message) : Except String EmailPointerMessage :=
  match EmailPointerMessage.try_from message with
  | Except.error e => Except.error e
  | Except.ok pointer =>
    let send_result :=
      match Broker.get_email_message table fault table_name pointer with
      | Except.ok email => Broker.send_email email
      | Except.error _ => Except.error "Unable to Parse Email"
    match send_result with
    | Except.ok _ => Except.ok pointer
    | Except.error msg => Except.error msg

/-- Embeds `Client::process_messages` (src/email_broker/src/main.rs): keep the
pointers of successfully processed messages, silently dropping failures. -/
def Broker.process_messages : Table → List Bool → String → List Message →
    List EmailPointerMessage
  | _, _, _, [] => []
  | table, faults, table_name, message :: rest =>
    match Broker.process_message table (faults.headD false) table_name message with
    | Except.ok pointer => pointer :: Broker.process_messages table faults.tail table_name rest
    | Except.error _ => Broker.process_messages table faults.tail table_name rest

structure DeleteMessageBatchRequest where
  entries : List DeleteMessageBatchRequestEntry
  queue_url : String
deriving Repr, DecidableEq

/-- External queue-service calls the broker's loop body can make. -/
inductive BrokerAction where
  | receiveMessage (queue_url : String) : BrokerAction
  | deleteMessageBatch (request : DeleteMessageBatchRequest) : BrokerAction
deriving Repr, DecidableEq

def BrokerAction.isDelete : BrokerAction → Bool
  | BrokerAction.deleteMessageBatch _ => true
  | _ => false

/-- One iteration of the broker `main` loop body: poll (`message_list` is the
external receive result), process the batch, build the delete request and log
it.  The returned action list contains every queue-service call the body
performs: the receive only — the source never calls `delete_message_batch`. -/
def Broker.cycle (table : Table) (faults : List Bool) (table_name queue_url : String)
    (message_list : Except String (List Message)) :
    DeleteMessageBatchRequest × List BrokerAction :=
  let processed_messages :=
    match message_list with
    | Except.ok messages => Broker.process_messages table faults table_name messages
    | Except.error _ => []
  let entries_to_delete := processed_messages.map DeleteMessageBatchRequestEntry.ofPointer
  (⟨entries_to_delete, queue_url⟩, [BrokerAction.receiveMessage queue_url])

/-- The broker `main` loop, fuel-indexed: `some n` means the loop terminated
after executing `n` cycles within the given fuel; `none` means it was still
running when the fuel ran out.  The body breaks after one cycle exactly when
`dry_run` is set. -/
def Broker.loop (dry_run : Bool) (table : Table) (faults : List Bool)
    (table_name queue_url : String)
    (schedule : Nat → Except String (List Message)) : Nat → Option Nat
  | 0 => none
  | fuel + 1 =>
    let _cycle := Broker.cycle table faults table_name queue_url (schedule 0)
    if dry_run then some 1
    else
      match Broker.loop dry_run table faults table_name queue_url
          (fun n => schedule (n + 1)) fuel with
      | some n => some (n + 1)
      | none => none

/-- The effective store state after an update call: the new state on success,
the unchanged old state on failure (the conditional write has no side effect
when it fails). -/
def applyUpdate (table : Table) (result : Except UpdateError Table) : Table :=
  match result with
  | Except.ok t => t
  | Except.error _ => table

/-! ## Helper lemmas -/

theorem Table.lookup_setItem_self (t : Table) (key : String) (item : Item) :
    Table.lookup (Table.setItem t key item) key = some item := by
  induction t with
  | nil => simp [Table.setItem, Table.lookup, List.find?]
  | cons kv rest ih =>
    by_cases h : kv.1 = key
    · simp [Table.setItem, h, Table.lookup, List.find?]
    · cases kv with
      | mk k it =>
        simp only at h
        simp only [Table.setItem, if_neg h]
        simpa [Table.lookup, List.find?, h] using ih

theorem Item.strAttr_setAttr_self (item : Item) (key : String) (v : AttributeValue) :
    Item.strAttr (Item.setAttr item key v) key = v.s := by
  induction item with
  | nil => simp [Item.setAttr, Item.strAttr, Item.get, List.find?]
  | cons kv rest ih =>
    by_cases h : kv.1 = key
    · simp [Item.setAttr, h, Item.strAttr, Item.get, List.find?]
    · cases kv with
      | mk k v0 =>
        simp only at h
        simp only [Item.setAttr, if_neg h]
        simpa [Item.strAttr, Item.get, List.find?, h] using ih

/-- Embeds `set_email_status` with no injected backend fault, reduced to the
conditional-update semantics on the store. -/
theorem set_email_status_none_eq (table : Table) (table_name : String)
    (message : EmailPointerMessage) (current_status next_status : EmailStatus) :
    set_email_status table none table_name message current_status next_status =
      match Table.lookup table message.email_id with
      | some item =>
        if Item.strAttr item "EmailStatus" = some current_status.toStr then
          Except.ok (Table.setItem table message.email_id
            (Item.setAttr item "EmailStatus" ⟨some next_status.toStr, none⟩))
        else Except.error (UpdateError.ConditionalCheckFailed "The conditional request failed")
      | none => Except.error (UpdateError.ConditionalCheckFailed "The conditional request failed") := by
  rfl

theorem set_email_status_fault_eq (table : Table) (e : UpdateError) (table_name : String)
    (message : EmailPointerMessage) (current_status next_status : EmailStatus) :
    set_email_status table (some e) table_name message current_status next_status =
      Except.error e := by
  rfl

/-- A successful conditional status update stores exactly the rendered target
status under the record's key. -/
theorem set_email_status_ok_statusOf (table : Table) (fault : Option UpdateError)
    (table_name : String) (message : EmailPointerMessage)
    (current_status next_status : EmailStatus) (t' : Table)
    (h : set_email_status table fault table_name message current_status next_status =
      Except.ok t') :
    Table.statusOf t' message.email_id = some next_status.toStr := by
  cases fault with
  | some e => rw [set_email_status_fault_eq] at h; exact absurd h (by simp)
  | none =>
    rw [set_email_status_none_eq] at h
    cases hl : Table.lookup table message.email_id with
    | none => rw [hl] at h; exact absurd h (by simp)
    | some item =>
      rw [hl] at h
      dsimp only at h
      by_cases hs : Item.strAttr item "EmailStatus" = some current_status.toStr
      · rw [if_pos hs] at h
        cases h
        simp [Table.statusOf, Table.lookup_setItem_self, Item.strAttr_setAttr_self]
      · rw [if_neg hs] at h; exact absurd h (by simp)

/-- With no injected fault, the conditional update succeeds exactly when the
stored status equals the expected one. -/
theorem set_email_status_ok_iff (table : Table) (table_name : String)
    (message : EmailPointerMessage) (current_status next_status : EmailStatus) :
    (∃ t', set_email_status table none table_name message current_status next_status =
      Except.ok t') ↔
      Table.statusOf table message.email_id = some current_status.toStr := by
  rw [set_email_status_none_eq]
  cases hl : Table.lookup table message.email_id with
  | none => simp [Table.statusOf, hl]
  | some item =>
    by_cases hs : Item.strAttr item "EmailStatus" = some current_status.toStr
    · simp [Table.statusOf, hl, hs]
    · simp [Table.statusOf, hl, hs]

/-! ## Claim theorems -/

/-- Claim C3: the conditional status transition `set_email_status(key, from, to)`
succeeds — and stores `to` — exactly when the record's stored status at call
time equals `from`; an injected backend failure or a non-matching stored
status yields an error, and on any error the store is unchanged. -/
theorem set_email_status_conditional (table : Table) (fault : Option UpdateError)
    (table_name : String) (message : EmailPointerMessage)
    (current_status next_status : EmailStatus) :
    (fault = none →
      ((∃ t', set_email_status table fault table_name message current_status next_status =
          Except.ok t') ↔
        Table.statusOf table message.email_id = some current_status.toStr)) ∧
    (∀ t', set_email_status table fault table_name message current_status next_status =
        Except.ok t' →
      Table.statusOf t' message.email_id = some next_status.toStr) ∧
    (∀ e, fault = some e →
      set_email_status table fault table_name message current_status next_status =
        Except.error e) ∧
    (∀ e, set_email_status table fault table_name message current_status next_status =
        Except.error e →
      applyUpdate table
        (set_email_status table fault table_name message current_status next_status) = table) := by
  refine ⟨?_, ?_, ?_, ?_⟩
  · intro hf
    subst hf
    exact set_email_status_ok_iff table table_name message current_status next_status
  · intro t' h
    exact set_email_status_ok_statusOf table fault table_name message current_status next_status t' h
  · intro e hf
    subst hf
    exact set_email_status_fault_eq table e table_name message current_status next_status
  · intro e h
    simp [applyUpdate, h]

/-- Claim C3 witness: on a concrete store holding record `e1` with status
`Pending`, the `Pending → Sending` transition succeeds and stores `Sending`;
with stored status `Sent` it fails and the store is unchanged. -/
theorem set_email_status_conditional_witness :
    (∃ t', set_email_status
        [("e1", [("EmailId", ⟨some "e1", none⟩), ("EmailStatus", ⟨some "Pending", none⟩)])]
        none "emails" ⟨"m1", "h1", "e1"⟩ EmailStatus.Pending EmailStatus.Sending =
        Except.ok t') ∧
    applyUpdate
      [("e1", [("EmailId", ⟨some "e1", none⟩), ("EmailStatus", ⟨some "Sent", none⟩)])]
      (set_email_status
        [("e1", [("EmailId", ⟨some "e1", none⟩), ("EmailStatus", ⟨some "Sent", none⟩)])]
        none "emails" ⟨"m1", "h1", "e1"⟩ EmailStatus.Pending EmailStatus.Sending) =
      [("e1", [("EmailId", ⟨some "e1", none⟩), ("EmailStatus", ⟨some "Sent", none⟩)])] := by
  constructor
  · exact (set_email_status_conditional
      [("e1", [("EmailId", ⟨some "e1", none⟩), ("EmailStatus", ⟨some "Pending", none⟩)])]
      none "emails" ⟨"m1", "h1", "e1"⟩ EmailStatus.Pending EmailStatus.Sending).1 rfl |>.mpr
      (by decide)
  · exact (set_email_status_conditional
      [("e1", [("EmailId", ⟨some "e1", none⟩), ("EmailStatus", ⟨some "Sent", none⟩)])]
      none "emails" ⟨"m1", "h1", "e1"⟩ EmailStatus.Pending EmailStatus.Sending).2.2.2
      (UpdateError.ConditionalCheckFailed "The conditional request failed") (by decide)

/-- Claim C8: parsing a stored status maps the three known strings to their
variants and everything else to `Unknown`; and the only conditional updates
the pipeline issues (`upate_to_sending`, `upate_to_sent`) leave stored
statuses that parse back to `Sending` and `Sent` respectively — a transition
never writes a status that parses to `Unknown`. -/
theorem status_parse_and_transitions :
    EmailStatus.fromStr "Pending" = EmailStatus.Pending ∧
    EmailStatus.fromStr "Sending" = EmailStatus.Sending ∧
    EmailStatus.fromStr "Sent" = EmailStatus.Sent ∧
    (∀ s, s ≠ "Pending" → s ≠ "Sending" → s ≠ "Sent" →
      EmailStatus.fromStr s = EmailStatus.Unknown) ∧
    (∀ table fault table_name pointer t',
      upate_to_sending table fault table_name pointer = Except.ok t' →
      (Table.statusOf t' pointer.email_id).map EmailStatus.fromStr =
        some EmailStatus.Sending) ∧
    (∀ table fault table_name pointer t',
      upate_to_sent table fault table_name pointer = Except.ok t' →
      (Table.statusOf t' pointer.email_id).map EmailStatus.fromStr =
        some EmailStatus.Sent) := by
  refine ⟨by decide, by decide, by decide, ?_, ?_, ?_⟩
  · intro s h1 h2 h3
    simp [EmailStatus.fromStr, h1, h2, h3]
  · intro table fault table_name pointer t' h
    have hs := set_email_status_ok_statusOf table fault table_name pointer
      EmailStatus.Pending EmailStatus.Sending t' h
    rw [hs]
    decide
  · intro table fault table_name pointer t' h
    have hs := set_email_status_ok_statusOf table fault table_name pointer
      EmailStatus.Sending EmailStatus.Sent t' h
    rw [hs]
    decide

/-- Claim C8 witness: an unrecognized stored value parses to `Unknown`, and a
concrete successful `Pending → Sending` transition leaves a stored status
parsing to `Sending`. -/
theorem status_parse_and_transitions_witness :
    EmailStatus.fromStr "Queued" = EmailStatus.Unknown ∧
    (Table.statusOf
        [("e1", [("EmailId", ⟨some "e1", none⟩), ("EmailStatus", ⟨some "Sending", none⟩)])]
        "e1").map EmailStatus.fromStr = some EmailStatus.Sending := by
  constructor
  · exact status_parse_and_transitions.2.2.2.1 "Queued" (by decide) (by decide) (by decide)
  · exact status_parse_and_transitions.2.2.2.2.1
      [("e1", [("EmailId", ⟨some "e1", none⟩), ("EmailStatus", ⟨some "Pending", none⟩)])]
      none "emails" ⟨"m1", "h1", "e1"⟩
      [("e1", [("EmailId", ⟨some "e1", none⟩), ("EmailStatus", ⟨some "Sending", none⟩)])]
      (by decide)

/-- Claim C10: pointer extraction is a pure, deterministic function of the
raw message's `(message_id, receipt_handle, body)` fields: messages agreeing
on those three fields extract identically — the same pointer on success, the
same rejection on failure — independent of the other message fields. -/
theorem try_from_deterministic (m1 m2 : Message)
    (hid : m1.message_id = m2.message_id)
    (hhandle : m1.receipt_handle = m2.receipt_handle)
    (hbody : m1.body = m2.body) :
    EmailPointerMessage.try_from m1 = EmailPointerMessage.try_from m2 := by
  unfold EmailPointerMessage.try_from
  rw [hid, hhandle, hbody]

/-- Claim C10 witness: two messages equal on the three extracted fields but
differing in `md5_of_body` and `attributes` extract identically. -/
theorem try_from_deterministic_witness :
    EmailPointerMessage.try_from
      ⟨some [("k", "v")], some "\x7b\"email_id\":\"e1\"\x7d", some "md5", none, none,
        some "m1", some "h1"⟩ =
    EmailPointerMessage.try_from
      ⟨none, some "\x7b\"email_id\":\"e1\"\x7d", none, none, none, some "m1", some "h1"⟩ :=
  try_from_deterministic
    ⟨some [("k", "v")], some "\x7b\"email_id\":\"e1\"\x7d", some "md5", none, none,
      some "m1", some "h1"⟩
    ⟨none, some "\x7b\"email_id\":\"e1\"\x7d", none, none, none, some "m1", some "h1"⟩
    rfl rfl rfl

/-- Claim C6 counterexample: pointer extraction succeeds on a body whose
`email_id` is the empty string — the claim's "non-empty record_key"
requirement does not hold in the code, which accepts any string value. -/
theorem try_from_accepts_empty_email_id :
    EmailPointerMessage.try_from
      (Message.mk3 (some "m1") (some "h1") (some "\x7b\"email_id\":\"\"\x7d")) =
      Except.ok ⟨"m1", "h1", ""⟩ := by
  decide

/-- Claim C6 (amended): pointer extraction succeeds iff `message_id` is
present, `receipt_handle` is present, and the body is present and parses as a
record reference (a JSON object with a string `email_id` field, possibly
empty); on any missing field or parse failure the result is an error and
processing the message yields `SkipMessage` carrying the original raw
message, with no fetch or transition attempted. -/
theorem try_from_success_iff (m : Message) :
    ((∃ p, EmailPointerMessage.try_from m = Except.ok p) ↔
      (m.message_id.isSome = true ∧ m.receipt_handle.isSome = true ∧
        ∃ b ptr, m.body = some b ∧ EmailPointer.from_json b = some ptr)) ∧
    (∀ e, EmailPointerMessage.try_from m = Except.error e →
      ∀ table table_name faults,
        Client.process_message table table_name faults m =
          (Except.error (ProcessError.SkipMessage m), table, [])) := by
  constructor
  · cases hid : m.message_id with
    | none => simp [EmailPointerMessage.try_from, hid]
    | some i =>
      cases hhandle : m.receipt_handle with
      | none => simp [EmailPointerMessage.try_from, hid, hhandle]
      | some h =>
        cases hbody : m.body with
        | none => simp [EmailPointerMessage.try_from, hid, hhandle, hbody]
        | some b =>
          cases hjson : EmailPointer.from_json b with
          | none => simp [EmailPointerMessage.try_from, hid, hhandle, hbody, hjson, Option.join]
          | some ptr =>
            simp [EmailPointerMessage.try_from, hid, hhandle, hbody, hjson, Option.join]
  · intro e he table table_name faults
    simp [Client.process_message, he]

/-- Claim C6 witness: a well-formed message extracts successfully; a message
with an unparsable body is rejected and processed as `SkipMessage` with no
collaborator call. -/
theorem try_from_success_iff_witness :
    (∃ p, EmailPointerMessage.try_from
      (Message.mk3 (some "m1") (some "h1") (some "\x7b\"email_id\":\"e1\"\x7d")) =
      Except.ok p) ∧
    Client.process_message [] "emails" CallFaults.none3
        (Message.mk3 (some "m2") (some "h2") (some "not json")) =
      (Except.error (ProcessError.SkipMessage
        (Message.mk3 (some "m2") (some "h2") (some "not json"))), [], []) := by
  constructor
  · exact (try_from_success_iff
      (Message.mk3 (some "m1") (some "h1") (some "\x7b\"email_id\":\"e1\"\x7d"))).1.mpr
      ⟨by decide, by decide, "\x7b\"email_id\":\"e1\"\x7d", ⟨"e1"⟩, by decide, by decide⟩
  · exact (try_from_success_iff
      (Message.mk3 (some "m2") (some "h2") (some "not json"))).2
      "Unable to parse EmailPointer." (by decide) [] "emails" CallFaults.none3

/-- Claim C9: with the dry-run flag the broker's poll loop performs exactly
one poll-process-reconcile cycle and stops; without it the loop never
terminates, whatever fuel it is given; and no iteration of the loop body ever
issues the queue-deletion request it builds. -/
theorem broker_loop_dry_run :
    (∀ (table : Table) (faults : List Bool) (table_name queue_url : String)
      (schedule : Nat → Except String (List Message)) (fuel : Nat),
      Broker.loop true table faults table_name queue_url schedule (fuel + 1) = some 1) ∧
    (∀ (table : Table) (faults : List Bool) (table_name queue_url : String)
      (schedule : Nat → Except String (List Message)) (fuel : Nat),
      Broker.loop false table faults table_name queue_url schedule fuel = none) ∧
    (∀ (table : Table) (faults : List Bool) (table_name queue_url : String)
      (message_list : Except String (List Message)),
      (Broker.cycle table faults table_name queue_url message_list).2.filter
        BrokerAction.isDelete = []) := by
  refine ⟨?_, ?_, ?_⟩
  · intro table faults table_name queue_url schedule fuel
    rfl
  · intro table faults table_name queue_url schedule fuel
    induction fuel generalizing schedule with
    | zero => rfl
    | succ n ih =>
      simp only [Broker.loop, if_neg (Bool.false_ne_true)]
      rw [ih]
  · intro table faults table_name queue_url message_list
    rfl

/-- Claim C4: when the fetched record's status is anything but `Pending`, the
processor returns `Skip(pointer)` with the store untouched and only the fetch
in its call trace (no transition, no delivery attempt), and the batch run
collects the pointer's deletion entry; replaying a pointer whose record is
now `Sent` is an instance. -/
theorem process_message_skips_non_pending (table : Table) (table_name : String)
    (faults : CallFaults) (m : Message) (pointer : EmailPointerMessage)
    (mail : EmailMessage)
    (hp : EmailPointerMessage.try_from m = Except.ok pointer)
    (hget : get_email_message table faults.getFault table_name pointer = Except.ok mail)
    (hstatus : mail.status ≠ EmailStatus.Pending) :
    Client.process_message table table_name faults m =
      (Except.error (ProcessError.Skip pointer), table, [Call.getEmail pointer.email_id]) ∧
    (Client.process_messages table table_name [faults] [m]).1 =
      some [DeleteMessageBatchRequestEntry.ofPointer pointer] := by
  have h1 : Client.process_message table table_name faults m =
      (Except.error (ProcessError.Skip pointer), table, [Call.getEmail pointer.email_id]) := by
    simp [Client.process_message, hp, hget, hstatus]
  refine ⟨h1, ?_⟩
  simp only [Client.process_messages, List.headD, List.tail, h1]
  rfl

/-- Claim C4 witness: a concrete record already in status `Sent` is skipped —
no transition, no delivery — and its queue entry is collected. -/
theorem process_message_skips_non_pending_witness :
    Client.process_message
        [("e1", [("EmailId", ⟨some "e1", none⟩), ("Subject", ⟨some "hello", none⟩),
          ("EmailStatus", ⟨some "Sent", none⟩)])]
        "emails" CallFaults.none3
        (Message.mk3 (some "m1") (some "h1") (some "\x7b\"email_id\":\"e1\"\x7d")) =
      (Except.error (ProcessError.Skip ⟨"m1", "h1", "e1"⟩),
        [("e1", [("EmailId", ⟨some "e1", none⟩), ("Subject", ⟨some "hello", none⟩),
          ("EmailStatus", ⟨some "Sent", none⟩)])],
        [Call.getEmail "e1"]) ∧
    (Client.process_messages
        [("e1", [("EmailId", ⟨some "e1", none⟩), ("Subject", ⟨some "hello", none⟩),
          ("EmailStatus", ⟨some "Sent", none⟩)])]
        "emails" [CallFaults.none3]
        [Message.mk3 (some "m1") (some "h1") (some "\x7b\"email_id\":\"e1\"\x7d")]).1 =
      some [DeleteMessageBatchRequestEntry.ofPointer ⟨"m1", "h1", "e1"⟩] :=
  process_message_skips_non_pending
    [("e1", [("EmailId", ⟨some "e1", none⟩), ("Subject", ⟨some "hello", none⟩),
      ("EmailStatus", ⟨some "Sent", none⟩)])]
    "emails" CallFaults.none3
    (Message.mk3 (some "m1") (some "h1") (some "\x7b\"email_id\":\"e1\"\x7d"))
    ⟨"m1", "h1", "e1"⟩
    (EmailMessage.withFields "e1" "hello" EmailStatus.Sent)
    (by decide) (by decide) (by decide)

/-- Claim C5: on a `Pending` record, the processor attempts the
`Pending → Sending` transition and, when it succeeds, invokes the delivery
stub — which always fails — so the outcome is `Retry`, no deletion entry is
collected, and the record is left stored as `Sending`; moreover no run of the
processor ever attempts a `Sending → Sent` transition (delivery never
succeeds). -/
theorem process_message_pending_retry :
    (∀ (table : Table) (table_name : String) (faults : CallFaults) (m : Message)
      (pointer : EmailPointerMessage) (mail : EmailMessage) (table1 : Table),
      EmailPointerMessage.try_from m = Except.ok pointer →
      get_email_message table faults.getFault table_name pointer = Except.ok mail →
      mail.status = EmailStatus.Pending →
      set_email_to_sending table faults.sendingFault table_name pointer = Except.ok table1 →
      Client.process_message table table_name faults m =
        (Except.error ProcessError.Retry, table1,
          [Call.getEmail pointer.email_id,
            Call.setStatus pointer.email_id EmailStatus.Pending EmailStatus.Sending,
            Call.send mail]) ∧
      Table.statusOf table1 pointer.email_id = some "Sending" ∧
      (Client.process_messages table table_name [faults] [m]).1 = some []) ∧
    (∀ (table : Table) (table_name : String) (faults : CallFaults) (m : Message)
      (eid : String),
      Call.setStatus eid EmailStatus.Sending EmailStatus.Sent ∉
        (Client.process_message table table_name faults m).2.2) := by
  constructor
  · intro table table_name faults m pointer mail table1 hp hget hstatus hset
    have h1 : Client.process_message table table_name faults m =
        (Except.error ProcessError.Retry, table1,
          [Call.getEmail pointer.email_id,
            Call.setStatus pointer.email_id EmailStatus.Pending EmailStatus.Sending,
            Call.send mail]) := by
      simp [Client.process_message, hp, hget, hstatus, hset, Client.send_email]
    refine ⟨h1, ?_, ?_⟩
    · have := set_email_status_ok_statusOf table faults.sendingFault table_name pointer
        EmailStatus.Pending EmailStatus.Sending table1 hset
      simpa [EmailStatus.toStr] using this
    · simp only [Client.process_messages, List.headD, List.tail, h1]
  · intro table table_name faults m eid
    unfold Client.process_message
    cases hp : EmailPointerMessage.try_from m with
    | error e => simp
    | ok pointer =>
      cases hget : get_email_message table faults.getFault table_name pointer with
      | error e => simp [hget]
      | ok mail =>
        by_cases hstatus : mail.status = EmailStatus.Pending
        · cases hset : set_email_to_sending table faults.sendingFault table_name pointer with
          | error e => simp [hget, hstatus, hset]
          | ok table1 => simp [hget, hstatus, hset, Client.send_email]
        · simp [hget, hstatus]

/-- Claim C5 witness: concrete `Pending` record — the transition to `Sending`
succeeds, the delivery stub fails, the outcome is `Retry` with no deletion
entry, and the record is left stored as `Sending`. -/
theorem process_message_pending_retry_witness :
    Client.process_message
        [("e1", [("EmailId", ⟨some "e1", none⟩), ("Subject", ⟨some "hello", none⟩),
          ("EmailStatus", ⟨some "Pending", none⟩)])]
        "emails" CallFaults.none3
        (Message.mk3 (some "m1") (some "h1") (some "\x7b\"email_id\":\"e1\"\x7d")) =
      (Except.error ProcessError.Retry,
        [("e1", [("EmailId", ⟨some "e1", none⟩), ("Subject", ⟨some "hello", none⟩),
          ("EmailStatus", ⟨some "Sending", none⟩)])],
        [Call.getEmail "e1",
          Call.setStatus "e1" EmailStatus.Pending EmailStatus.Sending,
          Call.send (EmailMessage.withFields "e1" "hello" EmailStatus.Pending)]) ∧
    Table.statusOf
        [("e1", [("EmailId", ⟨some "e1", none⟩), ("Subject", ⟨some "hello", none⟩),
          ("EmailStatus", ⟨some "Sending", none⟩)])] "e1" = some "Sending" ∧
    (Client.process_messages
        [("e1", [("EmailId", ⟨some "e1", none⟩), ("Subject", ⟨some "hello", none⟩),
          ("EmailStatus", ⟨some "Pending", none⟩)])]
        "emails" [CallFaults.none3]
        [Message.mk3 (some "m1") (some "h1") (some "\x7b\"email_id\":\"e1\"\x7d")]).1 =
      some [] :=
  process_message_pending_retry.1
    [("e1", [("EmailId", ⟨some "e1", none⟩), ("Subject", ⟨some "hello", none⟩),
      ("EmailStatus", ⟨some "Pending", none⟩)])]
    "emails" CallFaults.none3
    (Message.mk3 (some "m1") (some "h1") (some "\x7b\"email_id\":\"e1\"\x7d"))
    ⟨"m1", "h1", "e1"⟩
    (EmailMessage.withFields "e1" "hello" EmailStatus.Pending)
    [("e1", [("EmailId", ⟨some "e1", none⟩), ("Subject", ⟨some "hello", none⟩),
      ("EmailStatus", ⟨some "Sending", none⟩)])]
    (by decide) (by decide) (by decide) (by decide)

/-- A `SkipMessage` outcome of the processor always carries exactly the raw
message that was being processed, and only pointer-parse failure produces it. -/
theorem process_message_skipMessage_eq (table : Table) (table_name : String)
    (faults : CallFaults) (m m' : Message) (t2 : Table) (calls : List Call)
    (h : Client.process_message table table_name faults m =
      (Except.error (ProcessError.SkipMessage m'), t2, calls)) :
    m' = m := by
  unfold Client.process_message at h
  cases hp : EmailPointerMessage.try_from m with
  | error e =>
    simp [hp] at h
    exact h.1.symm
  | ok pointer =>
    cases hget : get_email_message table faults.getFault table_name pointer with
    | error e => simp [hp, hget] at h
    | ok mail =>
      by_cases hstatus : mail.status = EmailStatus.Pending
      · cases hset : set_email_to_sending table faults.sendingFault table_name pointer with
        | error e => simp [hp, hget, hstatus, hset] at h
        | ok table1 => simp [hp, hget, hstatus, hset, Client.send_email] at h
      · simp [hp, hget, hstatus] at h

/-- Claim C1: whenever a batch run completes (no unwrap panic), the collected
queue-deletion entries are exactly, in batch order, the entries contributed
by the `Ok`/`Skip`/`SkipMessage` outcomes — the pointer's entry for `Ok` and
`Skip`, the raw message's own identifiers for `SkipMessage` — with `Retry`
contributing nothing. -/
theorem process_messages_entries_eq (table : Table) (table_name : String)
    (faults : List CallFaults) (messages : List Message)
    (entries : List DeleteMessageBatchRequestEntry)
    (h : (Client.process_messages table table_name faults messages).1 = some entries) :
    entries =
      (Client.process_outcomes table table_name faults messages).filterMap entryOfOutcome := by
  induction messages generalizing table faults entries with
  | nil =>
    simp only [Client.process_messages] at h
    cases h
    simp [Client.process_outcomes]
  | cons m rest ih =>
    simp only [Client.process_messages] at h
    simp only [Client.process_outcomes]
    rcases hstep : Client.process_message table table_name (faults.headD CallFaults.none3) m with
      ⟨r, t2, calls⟩
    rw [hstep] at h
    cases r with
    | ok pointer =>
      dsimp only at h ⊢
      rcases Option.map_eq_some'.mp h with ⟨es, hes, hentries⟩
      subst hentries
      rw [ih t2 faults.tail es hes]
      simp [entryOfOutcome, List.filterMap_cons]
    | error err =>
      cases err with
      | Retry =>
        dsimp only at h ⊢
        rw [ih t2 faults.tail entries h]
        simp [entryOfOutcome, List.filterMap_cons]
      | Skip pointer =>
        dsimp only at h ⊢
        rcases Option.map_eq_some'.mp h with ⟨es, hes, hentries⟩
        subst hentries
        rw [ih t2 faults.tail es hes]
        simp [entryOfOutcome, List.filterMap_cons]
      | SkipMessage m' =>
        dsimp only at h ⊢
        cases hid : m'.message_id with
        | none => rw [hid] at h; dsimp only at h; cases h
        | some i =>
          cases hrh : m'.receipt_handle with
          | none => rw [hid, hrh] at h; dsimp only at h; cases h
          | some hh =>
            rw [hid, hrh] at h
            dsimp only at h
            rcases Option.map_eq_some'.mp h with ⟨es, hes, hentries⟩
            subst hentries
            rw [ih t2 faults.tail es hes]
            simp [entryOfOutcome, List.filterMap_cons, hid, hrh]

/-- Claim C1 witness: a concrete batch — one unparsable message
(`SkipMessage`), one record already `Sent` (`Skip`), one `Pending` record
(`Retry` from the failing delivery stub) — collects exactly the first two
entries, in order. -/
theorem process_messages_entries_eq_witness :
    (Client.process_messages
        [("e1", [("EmailId", ⟨some "e1", none⟩), ("Subject", ⟨some "a", none⟩),
          ("EmailStatus", ⟨some "Sent", none⟩)]),
         ("e2", [("EmailId", ⟨some "e2", none⟩), ("Subject", ⟨some "b", none⟩),
          ("EmailStatus", ⟨some "Pending", none⟩)])]
        "emails" []
        [Message.mk3 (some "m0") (some "h0") (some "not json"),
         Message.mk3 (some "m1") (some "h1") (some "\x7b\"email_id\":\"e1\"\x7d"),
         Message.mk3 (some "m2") (some "h2") (some "\x7b\"email_id\":\"e2\"\x7d")]).1 =
      some [⟨"m0", "h0"⟩, ⟨"m1", "h1"⟩] ∧
    [(⟨"m0", "h0"⟩ : DeleteMessageBatchRequestEntry), ⟨"m1", "h1"⟩] =
      (Client.process_outcomes
        [("e1", [("EmailId", ⟨some "e1", none⟩), ("Subject", ⟨some "a", none⟩),
          ("EmailStatus", ⟨some "Sent", none⟩)]),
         ("e2", [("EmailId", ⟨some "e2", none⟩), ("Subject", ⟨some "b", none⟩),
          ("EmailStatus", ⟨some "Pending", none⟩)])]
        "emails" []
        [Message.mk3 (some "m0") (some "h0") (some "not json"),
         Message.mk3 (some "m1") (some "h1") (some "\x7b\"email_id\":\"e1\"\x7d"),
         Message.mk3 (some "m2") (some "h2") (some "\x7b\"email_id\":\"e2\"\x7d")]).filterMap
        entryOfOutcome :=
  ⟨by decide,
    process_messages_entries_eq
      [("e1", [("EmailId", ⟨some "e1", none⟩), ("Subject", ⟨some "a", none⟩),
        ("EmailStatus", ⟨some "Sent", none⟩)]),
       ("e2", [("EmailId", ⟨some "e2", none⟩), ("Subject", ⟨some "b", none⟩),
        ("EmailStatus", ⟨some "Pending", none⟩)])]
      "emails" []
      [Message.mk3 (some "m0") (some "h0") (some "not json"),
       Message.mk3 (some "m1") (some "h1") (some "\x7b\"email_id\":\"e1\"\x7d"),
       Message.mk3 (some "m2") (some "h2") (some "\x7b\"email_id\":\"e2\"\x7d")]
      [⟨"m0", "h0"⟩, ⟨"m1", "h1"⟩] (by decide)⟩

/-- Claim C7 counterexample: a message with no `message_id` is rejected as
`SkipMessage`, and building its deletion entry hits
`message.message_id.unwrap()` on `None` — the batch run panics (modelled as
`none`), so `Client::process_messages` is not total. -/
theorem process_messages_panics_on_missing_id :
    (Client.process_messages [] "emails" []
      [Message.mk3 none (some "h1") (some "\x7b\"email_id\":\"e1\"\x7d")]).1 = none := by
  decide

/-- Claim C7 (amended): the unwraps are safe — and the batch run total — only
for batches whose raw messages all carry both `message_id` and
`receipt_handle`; a message rejected because one of those fields was absent
re-enters the `SkipMessage` arm with the field still absent and the unwrap
panics. -/
theorem process_messages_total_of_ids (table : Table) (table_name : String)
    (faults : List CallFaults) (messages : List Message)
    (hids : ∀ m ∈ messages, m.message_id.isSome = true ∧ m.receipt_handle.isSome = true) :
    ((Client.process_messages table table_name faults messages).1).isSome = true := by
  induction messages generalizing table faults with
  | nil => simp [Client.process_messages]
  | cons m rest ih =>
    have hrest : ∀ m' ∈ rest, m'.message_id.isSome = true ∧ m'.receipt_handle.isSome = true :=
      fun m' hm' => hids m' (List.mem_cons_of_mem m hm')
    have hm := hids m (List.mem_cons_self m rest)
    simp only [Client.process_messages]
    rcases hstep : Client.process_message table table_name (faults.headD CallFaults.none3) m with
      ⟨r, t2, calls⟩
    cases r with
    | ok pointer =>
      dsimp only
      simp [ih t2 faults.tail hrest]
    | error err =>
      cases err with
      | Retry =>
        dsimp only
        exact ih t2 faults.tail hrest
      | Skip pointer =>
        dsimp only
        simp [ih t2 faults.tail hrest]
      | SkipMessage m' =>
        have hm' : m' = m :=
          process_message_skipMessage_eq table table_name (faults.headD CallFaults.none3)
            m m' t2 calls hstep
        subst hm'
        rcases Option.isSome_iff_exists.mp hm.1 with ⟨i, hi⟩
        rcases Option.isSome_iff_exists.mp hm.2 with ⟨hh, hrh⟩
        dsimp only
        rw [hi, hrh]
        dsimp only
        simp [ih t2 faults.tail hrest]

/-- Claim C7 witness: a batch whose messages all carry both identifiers —
including one rejected for an unparsable body — completes without panicking. -/
theorem process_messages_total_of_ids_witness :
    ((Client.process_messages [] "emails" []
      [Message.mk3 (some "m0") (some "h0") (some "not json"),
       Message.mk3 (some "m1") (some "h1") (some "\x7b\"email_id\":\"e1\"\x7d")]).1).isSome =
      true :=
  process_messages_total_of_ids [] "emails" []
    [Message.mk3 (some "m0") (some "h0") (some "not json"),
     Message.mk3 (some "m1") (some "h1") (some "\x7b\"email_id\":\"e1\"\x7d")]
    (by decide)

/-- Claim C2: the handler's report is classified by the counts alone — all
records deletable ⇒ success; none deletable (with records received and the
delete call answering `Ok`) ⇒ `BatchFailure`; some but not all deletable
(delete call `Ok`) ⇒ `PartialBatchFailure`; and whenever the delete call
itself errors (it is only made when the counts differ) ⇒ `SqsDeleteFailed`,
regardless of how many entries were collected. -/
theorem handler_classification (table : Table) (table_name : String)
    (faults : List CallFaults) (records : List Message)
    (delete_response : Except String Unit) :
    ((lambda_entries table table_name faults records).1.length = records.length →
      handler table table_name faults records delete_response = Except.ok "Goodbye") ∧
    (delete_response = Except.ok () →
      (lambda_entries table table_name faults records).1.length = 0 →
      0 < records.length →
      handler table table_name faults records delete_response =
        Except.error EmailHandlerError.BatchFailure) ∧
    (delete_response = Except.ok () →
      0 < (lambda_entries table table_name faults records).1.length →
      (lambda_entries table table_name faults records).1.length < records.length →
      handler table table_name faults records delete_response =
        Except.error EmailHandlerError.PartialBatchFailure) ∧
    (∀ e, delete_response = Except.error e →
      (lambda_entries table table_name faults records).1.length ≠ records.length →
      handler table table_name faults records delete_response =
        Except.error EmailHandlerError.SqsDeleteFailed) := by
  refine ⟨?_, ?_, ?_, ?_⟩
  · intro hlen
    simp [handler, hlen]
  · intro hres hlen hrec
    subst hres
    have hne : ¬ records.length = (lambda_entries table table_name faults records).1.length := by
      omega
    simp [handler, hne, hlen]
    exact List.ne_nil_of_length_pos hrec
  · intro hres hpos hlt
    subst hres
    have hne : ¬ records.length = (lambda_entries table table_name faults records).1.length := by
      omega
    simp [handler, hne, hpos]
  · intro e hres hne
    subst hres
    have hne' : ¬ records.length = (lambda_entries table table_name faults records).1.length :=
      fun hh => hne hh.symm
    simp [handler, hne']

/-- Claim C2 witness: one unparsable record, delete call answering `Ok` —
nothing deletable, so the handler reports `BatchFailure`; and with two
records of which exactly one (already `Sent`) is deletable it reports
`PartialBatchFailure`. -/
theorem handler_classification_witness :
    handler [] "emails" [] [Message.mk3 (some "m0") (some "h0") (some "bad")]
        (Except.ok ()) = Except.error EmailHandlerError.BatchFailure ∧
    handler
        [("e1", [("EmailId", ⟨some "e1", none⟩), ("Subject", ⟨some "a", none⟩),
          ("EmailStatus", ⟨some "Sent", none⟩)])]
        "emails" []
        [Message.mk3 (some "m0") (some "h0") (some "bad"),
         Message.mk3 (some "m1") (some "h1") (some "\x7b\"email_id\":\"e1\"\x7d")]
        (Except.ok ()) = Except.error EmailHandlerError.PartialBatchFailure :=
  ⟨(handler_classification [] "emails" [] [Message.mk3 (some "m0") (some "h0") (some "bad")]
      (Except.ok ())).2.1 rfl (by decide) (by decide),
    (handler_classification
      [("e1", [("EmailId", ⟨some "e1", none⟩), ("Subject", ⟨some "a", none⟩),
        ("EmailStatus", ⟨some "Sent", none⟩)])]
      "emails" []
      [Message.mk3 (some "m0") (some "h0") (some "bad"),
       Message.mk3 (some "m1") (some "h1") (some "\x7b\"email_id\":\"e1\"\x7d")]
      (Except.ok ())).2.2.1 rfl (by decide) (by decide)⟩
